import Mathlib

/-!
Verification of the mediaflow-proxy launcher scripts.

This file shallowly embeds the decision logic of `launcher.py` and
`launcher1.py`: the boolean/integer environment parsers, port validation,
the certificate provisioner `ensure_cert` (HTTP/HTTPS decision, reuse of
existing material, SAN-list discovery, fallback on failure) and the
uvicorn launch-configuration builder.

Modelling conventions:
- Environment variables are `Option String` values (None = unset).
- Python exceptions raised by external calls (filesystem stat, the
  crypto import, key generation, file writes, hostname resolution, the
  outbound route probe) are modelled by an `Oracle` record saying, for each
  fallible call the code makes, whether it raises and what it returns.
  `Except` models exception propagation inside the generation block,
  which `ensure_cert` catches at its boundary.
- Python string functions (`strip`, `lower`, `int()`, `split`) are
  modelled over their ASCII fragment, which covers every string the
  launcher compares against.
- The filesystem is modelled by the two files the code touches
  (`bin/server.pem`, `bin/server.key`) as optional byte lists; a file's
  `st_size` is the list length.
- The unconditional `dist_bin.mkdir(parents=True, exist_ok=True)` at
  launcher1.py line 86 stands outside both try blocks, so an OSError it
  raises escapes `ensure_cert`.  `ensure_cert` therefore returns an
  `Except`: the error constructor is exactly that escaping exception, and
  every other failure is caught inside and becomes an ok outcome.
-/

/-- ASCII whitespace stripped by Python `str.strip()`. -/
def isPySpace (c : Char) : Bool :=
  c = ' ' || c = '\t' || c = '\n' || c = '\r' || c = '\x0b' || c = '\x0c'

/-- Python `str.strip()` on a character list. -/
def pyStripL (l : List Char) : List Char :=
  ((l.dropWhile isPySpace).reverse.dropWhile isPySpace).reverse

/-- Python `str.strip()` (ASCII fragment). -/
def pyStrip (s : String) : String := ⟨pyStripL s.data⟩

/-- Python `str.lower()` (ASCII fragment). -/
def pyLower (s : String) : String := ⟨s.data.map Char.toLower⟩

/-- Python `str.split(sep)` for a one-character separator: splits at every
occurrence and keeps empty pieces, so the result is always non-empty. -/
def splitChar (sep : Char) : List Char → List (List Char)
  | [] => [[]]
  | c :: rest =>
    if c = sep then [] :: splitChar sep rest
    else
      match splitChar sep rest with
      | h :: t => (c :: h) :: t
      | [] => [[c]]

/-- Numeric value of a decimal digit character. -/
def digitVal (c : Char) : Nat := c.toNat - 48

/-- Digit run of a Python integer literal after the first digit: single
underscores are allowed between digits, nowhere else. -/
def digitsAux : Nat → List Char → Option Nat
  | acc, [] => some acc
  | acc, '_' :: c :: rest =>
    if c.isDigit then digitsAux (acc * 10 + digitVal c) rest else none
  | _, ['_'] => none
  | acc, c :: rest =>
    if c.isDigit then digitsAux (acc * 10 + digitVal c) rest else none

/-- Unsigned part of a Python integer literal: at least one digit, and it
must start with a digit. -/
def parseUnsigned : List Char → Option Nat
  | [] => none
  | c :: rest => if c.isDigit then digitsAux (digitVal c) rest else none

/-- Python `int(s)` (ASCII fragment): surrounding whitespace is ignored, an
optional single `+` or `-` sign precedes the digits, and single underscores
may separate digits.  `none` models `int` raising `ValueError`. -/
def pyIntOfString (s : String) : Option Int :=
  match pyStripL s.data with
  | '+' :: rest => (parseUnsigned rest).map Int.ofNat
  | '-' :: rest => (parseUnsigned rest).map (fun n => - Int.ofNat n)
  | l => (parseUnsigned l).map Int.ofNat

/-- launcher1.py lines 15-18: `parse_bool` returns the default when the
variable is unset, and otherwise tests the stripped, lowered value for
membership in `("1", "true", "yes", "on")`. -/
def parse_bool (value : Option String) (default : Bool) : Bool :=
  match value with
  | none => default
  | some v =>
    decide (pyLower (pyStrip v) = "1" ∨ pyLower (pyStrip v) = "true" ∨
      pyLower (pyStrip v) = "yes" ∨ pyLower (pyStrip v) = "on")

namespace launcher1

/-- launcher1.py lines 35-42, the PORT part of `validate_config`: parse
`os.getenv("PORT", "8888")` with Python `int`, accept 1..65535, and on a
parse failure or out-of-range value fall back to 8888 with a warning.
The second component records whether the warning branch ran. -/
def validate_config_port (portEnv : Option String) : Int × Bool :=
  match pyIntOfString (portEnv.getD "8888") with
  | some n => if 1 ≤ n ∧ n ≤ 65535 then (n, false) else (8888, true)
  | none => (8888, true)

end launcher1

namespace launcher

/-- launcher.py lines 45-52, the PORT part of `validate_config`.  Identical
to the launcher1.py variant except that the unset default is the Python
integer 8888 (not the string "8888"), so no string parse happens there. -/
def validate_config_port (portEnv : Option String) : Int × Bool :=
  match portEnv with
  | none => (8888, false)
  | some s =>
    match pyIntOfString s with
    | some n => if 1 ≤ n ∧ n ≤ 65535 then (n, false) else (8888, true)
    | none => (8888, true)

end launcher

/-- Decimal value of a digit run. -/
def octetVal (g : List Char) : Nat := g.foldl (fun a c => a * 10 + digitVal c) 0

/-- One dotted-quad octet as accepted by Python `ipaddress.IPv4Address`:
1 to 3 decimal digits, no leading zero, value at most 255. -/
def isValidOctet (g : List Char) : Bool :=
  decide (1 ≤ g.length) && decide (g.length ≤ 3) && g.all Char.isDigit &&
    (decide (g.length = 1) || decide (g.head? ≠ some '0')) &&
    decide (octetVal g ≤ 255)

/-- The strings accepted by Python `ipaddress.IPv4Address`: exactly four
valid octets separated by dots. -/
def isValidIPv4 (s : String) : Bool :=
  decide ((splitChar '.' s.data).length = 4) && (splitChar '.' s.data).all isValidOctet

/-- Hexadecimal digit. -/
def isHexDigitChar (c : Char) : Bool :=
  c.isDigit || ('a' ≤ c && c ≤ 'f') || ('A' ≤ c && c ≤ 'F')

/-- One IPv6 group: 1 to 4 hexadecimal digits. -/
def isHexGroup (g : List Char) : Bool :=
  decide (1 ≤ g.length) && decide (g.length ≤ 4) && g.all isHexDigitChar

/-- Python `s.split("::")`: split at the leftmost occurrences of the
two-character separator, non-overlapping. -/
def splitDoubleColon : List Char → List (List Char)
  | [] => [[]]
  | [c] => [[c]]
  | c1 :: c2 :: rest =>
    if c1 = ':' ∧ c2 = ':' then [] :: splitDoubleColon rest
    else
      match splitDoubleColon (c2 :: rest) with
      | h :: t => (c1 :: h) :: t
      | [] => [[c1]]

/-- Modelled from the spec: a "syntactically valid IP literal" of the IPv6
family, as `ipaddress.IPv6Address` accepts it.  The model covers the plain
hex-group forms (8 groups, or fewer with one `::` elision) and omits the
embedded-IPv4 tail form, which no statement below relies on. -/
def isValidIPv6 (s : String) : Bool :=
  match splitDoubleColon s.data with
  | [whole] =>
    decide ((splitChar ':' whole).length = 8) && (splitChar ':' whole).all isHexGroup
  | [l, r] =>
    (if l = [] then [] else splitChar ':' l).all isHexGroup &&
      (if r = [] then [] else splitChar ':' r).all isHexGroup &&
      decide ((if l = [] then [] else splitChar ':' l).length +
        (if r = [] then [] else splitChar ':' r).length ≤ 7)
  | _ => false

/-- Modelled from the spec: "each entry must be a syntactically valid IP
literal".  An IP literal is a valid IPv4 or IPv6 address string. -/
def specValidIPLiteral (s : String) : Bool := isValidIPv4 s || isValidIPv6 s

/-- One entry of the subject-alternative-name list built by `ensure_cert`
(launcher1.py lines 116-155).  IP entries carry their literal string; since
`IPv4Address` rejects leading zeros, distinct accepted literals denote
distinct addresses, so string equality is address equality. -/
inductive SanEntry where
  | dnsName (s : String)
  | ipv4 (s : String)
  | ipv6 (s : String)
deriving DecidableEq

/-- The environment variables `ensure_cert` reads. -/
structure EnvVars where
  disable_https : Option String
  cert_additional_ips : Option String
deriving DecidableEq

/-- The two files `ensure_cert` touches, as optional byte contents.
`none` means the file does not exist; `st_size` is the list length. -/
structure FSState where
  cert : Option (List Nat)
  key : Option (List Nat)
deriving DecidableEq

/-- Outcomes of every fallible external call `ensure_cert` makes, fixed
before the run.  A `none`/`true` flag models the call raising. -/
structure Oracle where
  /-- `dist_bin.mkdir(parents=True, exist_ok=True)` at line 86 raises
  (for instance, `bin/` is missing and the base directory is read-only).
  This call runs outside every try block. -/
  mkdirRaises : Bool
  /-- `Path.stat` raises while checking the sizes of the existing pair. -/
  statRaises : Bool
  /-- the `cryptography` import succeeds. -/
  cryptoAvailable : Bool
  /-- `rsa.generate_private_key` (or certificate building/signing) raises. -/
  keygenRaises : Bool
  /-- result of `socket.gethostbyname(socket.gethostname())`; `none` if it raises. -/
  hostnameIP : Option String
  /-- local address of the UDP route probe; `none` if it raises. -/
  routeIP : Option String
  /-- writing `server.pem` raises. -/
  writeCertRaises : Bool
  /-- writing `server.key` raises. -/
  writeKeyRaises : Bool
  /-- PEM bytes of the generated certificate. -/
  genCertBytes : List Nat
  /-- PEM bytes of the generated private key. -/
  genKeyBytes : List Nat
deriving DecidableEq

/-- launcher1.py lines 116-120: the seed SAN entries. -/
def seedSan : List SanEntry :=
  [SanEntry.dnsName "localhost", SanEntry.ipv4 "127.0.0.1", SanEntry.ipv6 "::1"]

/-- launcher1.py lines 123-131: resolve the local hostname; append its IP
when it differs from 127.0.0.1 (and `IPv4Address` accepts it — any raise in
the step is swallowed).  Returns appended SAN entries and detected IPs. -/
def hostnameStep (o : Oracle) : List SanEntry × List String :=
  match o.hostnameIP with
  | none => ([], [])
  | some ip =>
    if ip ≠ "127.0.0.1" ∧ isValidIPv4 ip = true then ([SanEntry.ipv4 ip], [ip])
    else ([], [])

/-- launcher1.py lines 134-143: the outbound-route probe; append its local
IP when it is not 127.0.0.1 and not already detected. -/
def routeStep (o : Oracle) (detected : List String) : List SanEntry × List String :=
  match o.routeIP with
  | none => ([], [])
  | some ip =>
    if ip ∉ "127.0.0.1" :: detected ∧ isValidIPv4 ip = true then ([SanEntry.ipv4 ip], [ip])
    else ([], [])

/-- launcher1.py lines 146-147: `os.getenv("CERT_ADDITIONAL_IPS", "").strip()`,
then split on commas when non-empty. -/
def customList (ce : Option String) : List String :=
  if pyStrip (ce.getD "") = "" then []
  else (splitChar ',' (pyStrip (ce.getD "")).data).map (fun l => String.mk l)

/-- launcher1.py lines 148-155: the loop over the custom entries.  Each
entry is stripped; empty entries are skipped, `IPv4Address`-valid entries
are appended to the SAN list and the detected list with no duplicate
check, and every other entry produces exactly one warning.  The third
component counts the warnings printed. -/
def addCustom : List String → List SanEntry → List String → Nat →
    List SanEntry × List String × Nat
  | [], san, det, w => (san, det, w)
  | e :: rest, san, det, w =>
    if pyStrip e = "" then addCustom rest san det w
    else if isValidIPv4 (pyStrip e) = true then
      addCustom rest (san ++ [SanEntry.ipv4 (pyStrip e)]) (det ++ [pyStrip e]) w
    else addCustom rest san det (w + 1)

/-- Number of custom entries that are non-empty after stripping and not
valid IPv4 literals — the entries the loop warns about. -/
def invalidCustomCount (es : List String) : Nat :=
  (es.filter (fun e => decide (pyStrip e ≠ "") && ! isValidIPv4 (pyStrip e))).length

/-- launcher1.py lines 116-155: the whole SAN-list construction.  Returns
the SAN list, the detected IPs, and the number of invalid-entry warnings. -/
def buildSanList (o : Oracle) (ce : Option String) : List SanEntry × List String × Nat :=
  addCustom (customList ce)
    (seedSan ++ (hostnameStep o).1 ++ (routeStep o (hostnameStep o).2).1)
    ((hostnameStep o).2 ++ (routeStep o (hostnameStep o).2).2)
    0

/-- Path of `server.pem` under the runtime base (launcher1.py line 87). -/
def certPath (basePath : String) : String := basePath ++ "/bin/server.pem"

/-- Path of `server.key` under the runtime base (launcher1.py line 88). -/
def keyPath (basePath : String) : String := basePath ++ "/bin/server.key"

/-- launcher1.py lines 90-96: the existing pair is reusable exactly when
both files exist, `stat` does not raise, and both sizes are non-zero; a
raise is caught and treated as not usable. -/
def loadExisting (basePath : String) (fs : FSState) (statRaises : Bool) :
    Option (String × String) :=
  match fs.cert, fs.key with
  | some c, some k =>
    if statRaises then none
    else if c.length ≠ 0 ∧ k.length ≠ 0 then some (certPath basePath, keyPath basePath)
    else none
  | _, _ => none

/-- The exceptions the generation block can raise (launcher1.py 186-191
distinguishes `ImportError` from everything else; both fall back). -/
inductive PyErr where
  | importError
  | otherError
deriving DecidableEq

/-- launcher1.py lines 98-184, the body of the generation `try` block:
load the crypto capability, generate a key, build the SAN list, sign,
and persist both files.  An error carries the filesystem as left behind
(the cert write can succeed while the key write raises) and the number of
custom-IP warnings already printed. -/
def generateCert (basePath : String) (env : EnvVars) (o : Oracle) (fs : FSState) :
    Except (PyErr × FSState × Nat) ((String × String) × FSState × List SanEntry × Nat) :=
  if o.cryptoAvailable = true then
    if o.keygenRaises = true then Except.error (PyErr.otherError, fs, 0)
    else if o.writeCertRaises = true then
      Except.error (PyErr.otherError, fs, (buildSanList o env.cert_additional_ips).2.2)
    else if o.writeKeyRaises = true then
      Except.error (PyErr.otherError, { cert := some o.genCertBytes, key := fs.key },
        (buildSanList o env.cert_additional_ips).2.2)
    else
      Except.ok ((certPath basePath, keyPath basePath),
        { cert := some o.genCertBytes, key := some o.genKeyBytes },
        (buildSanList o env.cert_additional_ips).1,
        (buildSanList o env.cert_additional_ips).2.2)
  else Except.error (PyErr.importError, fs, 0)

/-- The spec's `TLSDecision`, read off from which exit of `ensure_cert`
produced the outcome. -/
inductive TLSDecision where
  | Disabled
  | Reused
  | Generated
  | FellBackToHTTP
deriving DecidableEq

/-- Observable outcome of one `ensure_cert` call: the ssl_config dict
(`none` is the empty dict), the protocol string, the filesystem left
behind, the invalid-custom-IP warnings printed, the SAN list of a freshly
generated certificate, and which decision exit was taken. -/
structure EnsureOutcome where
  ssl : Option (String × String)
  protocol : String
  fs : FSState
  warnings : Nat
  san : Option (List SanEntry)
  decision : TLSDecision
deriving DecidableEq

/-- The OS-level exception of the directory creation at launcher1.py line
86, which no handler in `ensure_cert` catches. -/
inductive OSErr where
  | mkdirError
deriving DecidableEq

/-- Effective outcome of `dist_bin.mkdir(parents=True, exist_ok=True)` at
launcher1.py line 86.  The oracle's raise flag is only effective when
neither certificate file exists: when either file is present inside
`bin/`, that directory exists, and `mkdir` with `exist_ok=True` on an
existing directory returns without raising. -/
def mkdirRaisesAt (o : Oracle) (fs : FSState) : Bool :=
  o.mkdirRaises && fs.cert.isNone && fs.key.isNone

/-- launcher1.py lines 77-191: `ensure_cert`.  Disabled via environment →
`({}, "HTTP")` before anything else runs; then the unconditional `mkdir`
of line 86, whose OSError escapes uncaught (the `Except.error` result);
then a usable existing pair → reuse with HTTPS; otherwise the generation
block runs, every one of its exceptions caught and turned into the
`({}, "HTTP")` fallback. -/
def ensure_cert (basePath : String) (env : EnvVars) (o : Oracle) (fs : FSState) :
    Except OSErr EnsureOutcome :=
  if parse_bool env.disable_https false = true then
    Except.ok
      { ssl := none, protocol := "HTTP", fs := fs, warnings := 0, san := none,
        decision := TLSDecision.Disabled }
  else if mkdirRaisesAt o fs = true then Except.error OSErr.mkdirError
  else
    match loadExisting basePath fs o.statRaises with
    | some p =>
      Except.ok
        { ssl := some p, protocol := "HTTPS", fs := fs, warnings := 0, san := none,
          decision := TLSDecision.Reused }
    | none =>
      match generateCert basePath env o fs with
      | Except.ok r =>
        Except.ok
          { ssl := some r.1, protocol := "HTTPS", fs := r.2.1, warnings := r.2.2.2,
            san := some r.2.2.1, decision := TLSDecision.Generated }
      | Except.error e =>
        Except.ok
          { ssl := none, protocol := "HTTP", fs := e.2.1, warnings := e.2.2,
            san := none, decision := TLSDecision.FellBackToHTTP }

/-- The uvicorn launch configuration assembled by launcher1.py lines
206-223.  `config.update(ssl_config)` adds the two ssl keys exactly when
the dict is non-empty, which the two `Option` fields mirror. -/
structure UvicornConfig where
  app : String
  host : String
  port : Int
  log_level : String
  proxy_headers : Bool
  forwarded_allow_ips : String
  http : String
  ssl_certfile : Option String
  ssl_keyfile : Option String
deriving DecidableEq

/-- launcher1.py lines 206-223: `build_uvicorn_config`.  The `http` mode is
`h11` only when the ssl dict is non-empty (truthy) and the HTTP/2 flag is
set, else `auto`. -/
def build_uvicorn_config (port : Int) (host : String)
    (ssl_config : Option (String × String)) (enable_http2 : Bool) (debug : Bool) :
    UvicornConfig :=
  { app := "mediaflow_proxy.main:app"
    host := host
    port := port
    log_level := if debug then "debug" else "info"
    proxy_headers := true
    forwarded_allow_ips := "*"
    http := if ssl_config.isSome && enable_http2 then "h11" else "auto"
    ssl_certfile := ssl_config.map Prod.fst
    ssl_keyfile := ssl_config.map Prod.snd }

/-! Concrete oracles and environments used by the witness theorems. -/

/-- An oracle where every external call succeeds and both network probes
fail (raise), so discovery contributes nothing. -/
def oAllGood : Oracle :=
  { mkdirRaises := false, statRaises := false, cryptoAvailable := true,
    keygenRaises := false, hostnameIP := none, routeIP := none,
    writeCertRaises := false, writeKeyRaises := false,
    genCertBytes := [1], genKeyBytes := [2] }

/-- `oAllGood` with the size check raising. -/
def oStatFail : Oracle := { oAllGood with statRaises := true }

/-- `oAllGood` with the `cryptography` import unavailable. -/
def oNoCrypto : Oracle := { oAllGood with cryptoAvailable := false }

/-- An oracle where the line-86 directory creation raises and the
cryptography import is unavailable: an enumerated provisioning failure
that never gets the chance to fall back. -/
def oMkdirFail : Oracle :=
  { oAllGood with mkdirRaises := true, cryptoAvailable := false }

/-- Environment with HTTPS left enabled and no custom IPs. -/
def envOff : EnvVars := { disable_https := none, cert_additional_ips := none }

/-- Environment that disables HTTPS. -/
def envOn : EnvVars := { disable_https := some "true", cert_additional_ips := none }

/-- An oracle where both network discovery steps fail, for the custom-IP
counterexample. -/
def oC3 : Oracle :=
  { mkdirRaises := false, statRaises := false, cryptoAvailable := true,
    keygenRaises := false, hostnameIP := none, routeIP := none,
    writeCertRaises := false, writeKeyRaises := false,
    genCertBytes := [1], genKeyBytes := [2] }

/-- An oracle whose probes both resolve to 127.0.0.1, for the witness of
the seed-deduplication part. -/
def oC3W : Oracle :=
  { mkdirRaises := false, statRaises := false, cryptoAvailable := true,
    keygenRaises := false, hostnameIP := some "127.0.0.1",
    routeIP := some "127.0.0.1", writeCertRaises := false,
    writeKeyRaises := false, genCertBytes := [1], genKeyBytes := [2] }

/-! Helper lemmas about the custom-IP loop. -/

theorem addCustom_mem_mono (es : List String) (san : List SanEntry) (det : List String)
    (w : Nat) (x : SanEntry) (h : x ∈ san) : x ∈ (addCustom es san det w).1 := by
  induction es generalizing san det w with
  | nil => simpa [addCustom] using h
  | cons a t ih =>
    simp only [addCustom]
    split_ifs with h1 h2
    · exact ih san det w h
    · exact ih (san ++ [SanEntry.ipv4 (pyStrip a)]) (det ++ [pyStrip a]) w
        (List.mem_append_left _ h)
    · exact ih san det (w + 1) h

theorem addCustom_valid_mem (es : List String) (san : List SanEntry) (det : List String)
    (w : Nat) (e : String) (he : e ∈ es) (hv : isValidIPv4 (pyStrip e) = true) :
    SanEntry.ipv4 (pyStrip e) ∈ (addCustom es san det w).1 := by
  induction es generalizing san det w with
  | nil => cases he
  | cons a t ih =>
    rcases List.mem_cons.mp he with rfl | he'
    · have hne : ¬ pyStrip e = "" := by
        intro h0
        rw [h0] at hv
        exact absurd hv (by decide)
      simp only [addCustom]
      rw [if_neg hne, if_pos hv]
      exact addCustom_mem_mono t _ _ w _ (List.mem_append_right _ (List.mem_singleton.mpr rfl))
    · simp only [addCustom]
      split_ifs with h1 h2
      · exact ih san det w he'
      · exact ih _ _ w he'
      · exact ih san det (w + 1) he'

theorem addCustom_warnings (es : List String) (san : List SanEntry) (det : List String)
    (w : Nat) : (addCustom es san det w).2.2 = w + invalidCustomCount es := by
  induction es generalizing san det w with
  | nil => simp [addCustom, invalidCustomCount]
  | cons a t ih =>
    by_cases h1 : pyStrip a = ""
    · rw [show addCustom (a :: t) san det w = addCustom t san det w by
        simp [addCustom, h1]]
      rw [ih]
      have : invalidCustomCount (a :: t) = invalidCustomCount t := by
        simp [invalidCustomCount, h1]
      rw [this]
    · by_cases h2 : isValidIPv4 (pyStrip a) = true
      · rw [show addCustom (a :: t) san det w =
          addCustom t (san ++ [SanEntry.ipv4 (pyStrip a)]) (det ++ [pyStrip a]) w by
            simp [addCustom, h1, h2]]
        rw [ih]
        have : invalidCustomCount (a :: t) = invalidCustomCount t := by
          simp [invalidCustomCount, h1, h2]
        rw [this]
      · rw [show addCustom (a :: t) san det w = addCustom t san det (w + 1) by
          simp [addCustom, h1, h2]]
        rw [ih]
        have : invalidCustomCount (a :: t) = invalidCustomCount t + 1 := by
          simp [invalidCustomCount, h1, h2]
        rw [this]
        omega

/-- C6: for every outcome of the fallible discovery steps — hostname
resolution, the outbound-route probe and custom-IP parsing, including all
of them failing — the SAN list built for a generated certificate contains
the three seed entries localhost, 127.0.0.1 and ::1. -/
theorem san_always_contains_seeds (o : Oracle) (ce : Option String) :
    SanEntry.dnsName "localhost" ∈ (buildSanList o ce).1 ∧
      SanEntry.ipv4 "127.0.0.1" ∈ (buildSanList o ce).1 ∧
      SanEntry.ipv6 "::1" ∈ (buildSanList o ce).1 := by
  refine ⟨?_, ?_, ?_⟩ <;>
    · simp only [buildSanList]
      exact addCustom_mem_mono _ _ _ _ _ (by simp [seedSan])

/-- C3 counterexample: with hostname resolution and the route probe failing
and the operator list "fe80::1,127.0.0.1", the entry fe80::1 is a
syntactically valid IP literal yet is excluded from the SAN set (it draws
the single warning, because the loop accepts only IPv4 literals), and the
entry 127.0.0.1 — a duplicate of the seed — is included a second time.  So
both the valid-literal-inclusion part and the duplicate-exclusion part of
the claim fail at this input. -/
theorem custom_ip_claim_fails :
    specValidIPLiteral "fe80::1" = true ∧
      SanEntry.ipv6 "fe80::1" ∉ (buildSanList oC3 (some "fe80::1,127.0.0.1")).1 ∧
      SanEntry.ipv4 "fe80::1" ∉ (buildSanList oC3 (some "fe80::1,127.0.0.1")).1 ∧
      (buildSanList oC3 (some "fe80::1,127.0.0.1")).1.count (SanEntry.ipv4 "127.0.0.1") = 2 ∧
      (buildSanList oC3 (some "fe80::1,127.0.0.1")).2.2 = 1 := by
  decide

/-- C3 as amended: every custom entry whose stripped form is a valid IPv4
literal is included in the SAN set; the loop emits exactly one warning per
non-empty entry that is not a valid IPv4 literal, each skipped without
affecting the rest; custom entries get no duplicate check, while the
hostname-resolved and route-probed addresses are deduplicated against
127.0.0.1 and the previously detected IPs (so with both probes returning
127.0.0.1 and no custom list, the SAN set is exactly the three seeds). -/
theorem custom_ip_processing :
    (∀ (o : Oracle) (ce : Option String) (e : String), e ∈ customList ce →
        isValidIPv4 (pyStrip e) = true →
        SanEntry.ipv4 (pyStrip e) ∈ (buildSanList o ce).1) ∧
      (∀ (o : Oracle) (ce : Option String),
        (buildSanList o ce).2.2 = invalidCustomCount (customList ce)) ∧
      (∀ o : Oracle, o.hostnameIP = some "127.0.0.1" → o.routeIP = some "127.0.0.1" →
        (buildSanList o none).1 = seedSan) := by
  refine ⟨?_, ?_, ?_⟩
  · intro o ce e he hv
    simp only [buildSanList]
    exact addCustom_valid_mem _ _ _ _ e he hv
  · intro o ce
    simp only [buildSanList]
    rw [addCustom_warnings]
    omega
  · intro o h1 h2
    have hc : customList none = [] := rfl
    simp [buildSanList, hostnameStep, routeStep, h1, h2, hc, addCustom]

/-- Witness for the amended C3 theorem at a concrete environment: the valid
entry 10.0.0.5 lands in the SAN set, the bogus entry yields the single
warning, and with both probes at 127.0.0.1 and no custom list the SAN set
is exactly the seeds. -/
theorem custom_ip_processing_witness :
    SanEntry.ipv4 "10.0.0.5" ∈ (buildSanList oC3W (some "10.0.0.5,bogus")).1 ∧
      (buildSanList oC3W (some "10.0.0.5,bogus")).2.2 = 1 ∧
      (buildSanList oC3W none).1 = seedSan :=
  ⟨by
      have h := custom_ip_processing.1 oC3W (some "10.0.0.5,bogus") "10.0.0.5"
        (by decide) (by decide)
      have heq : pyStrip "10.0.0.5" = "10.0.0.5" := by decide
      rwa [heq] at h,
    by
      have h := custom_ip_processing.2.1 oC3W (some "10.0.0.5,bogus")
      rw [h]
      decide,
    custom_ip_processing.2.2 oC3W rfl rfl⟩

/-- C4: when the configuration disables HTTPS, `ensure_cert` returns
`({}, "HTTP")` immediately: the outcome is the Disabled exit, the
filesystem is untouched and nothing else runs — not even the line-86
`mkdir` — for every base path, oracle and filesystem state, including one
holding a valid pair. -/
theorem disable_https_short_circuit (basePath : String) (env : EnvVars) (o : Oracle)
    (fs : FSState) (h : parse_bool env.disable_https false = true) :
    ensure_cert basePath env o fs = Except.ok
      { ssl := none, protocol := "HTTP", fs := fs, warnings := 0, san := none,
        decision := TLSDecision.Disabled } := by
  simp [ensure_cert, h]

/-- Witness for C4 with `DISABLE_HTTPS=true` and a valid non-empty pair on
disk. -/
theorem disable_https_short_circuit_witness :
    ensure_cert "base" envOn oAllGood ⟨some [1], some [2]⟩ = Except.ok
      { ssl := none, protocol := "HTTP", fs := ⟨some [1], some [2]⟩, warnings := 0,
        san := none, decision := TLSDecision.Disabled } :=
  disable_https_short_circuit "base" envOn oAllGood ⟨some [1], some [2]⟩ (by decide)

/-- C5: loading existing material succeeds exactly when both files exist
with non-zero size (first part, with `stat` not raising); a stat error is
treated as not usable (second part); a usable pair is reused with protocol
HTTPS and the files untouched (third part — unconditional in the oracle,
since a loadable pair means both files sit inside `bin/`, so the line-86
`mkdir` cannot raise); and a stat error while the pair is on disk makes
the call proceed to regeneration, ending in an ok Generated or
FellBackToHTTP outcome — never a propagated error (fourth part). -/
theorem load_existing_semantics :
    (∀ (b : String) (fs : FSState),
        (loadExisting b fs false).isSome = true ↔
          ((∃ c, fs.cert = some c ∧ c ≠ []) ∧ (∃ k, fs.key = some k ∧ k ≠ []))) ∧
      (∀ (b : String) (fs : FSState), loadExisting b fs true = none) ∧
      (∀ (b : String) (env : EnvVars) (o : Oracle) (fs : FSState) (p : String × String),
        parse_bool env.disable_https false = false →
        loadExisting b fs o.statRaises = some p →
        ensure_cert b env o fs = Except.ok
          { ssl := some p, protocol := "HTTPS", fs := fs, warnings := 0, san := none,
            decision := TLSDecision.Reused }) ∧
      (∀ (b : String) (env : EnvVars) (o : Oracle) (c k : List Nat),
        parse_bool env.disable_https false = false → o.statRaises = true →
        ∃ out, ensure_cert b env o ⟨some c, some k⟩ = Except.ok out ∧
          (out.decision = TLSDecision.Generated ∨
            out.decision = TLSDecision.FellBackToHTTP)) := by
  have hload_true : ∀ (b : String) (fs : FSState), loadExisting b fs true = none := by
    intro b fs
    obtain ⟨c, k⟩ := fs
    cases c <;> cases k <;> simp [loadExisting]
  refine ⟨?_, hload_true, ?_, ?_⟩
  · intro b fs
    obtain ⟨c, k⟩ := fs
    cases c with
    | none => simp [loadExisting]
    | some cb =>
      cases k with
      | none => simp [loadExisting]
      | some kb =>
        simp only [loadExisting]
        rw [if_neg (by simp)]
        split_ifs with h
        · simp only [Option.isSome_some, true_iff]
          refine ⟨⟨cb, rfl, ?_⟩, ⟨kb, rfl, ?_⟩⟩
          · exact fun h0 => h.1 (by simp [h0])
          · exact fun h0 => h.2 (by simp [h0])
        · simp only [Option.isSome_none, Bool.false_eq_true, false_iff]
          rintro ⟨⟨c', hc', hcne⟩, ⟨k', hk', hkne⟩⟩
          obtain rfl : cb = c' := by injection hc'
          obtain rfl : kb = k' := by injection hk'
          exact h ⟨fun h0 => hcne (List.length_eq_zero.mp h0),
            fun h0 => hkne (List.length_eq_zero.mp h0)⟩
  · intro b env o fs p hd hl
    obtain ⟨cf, kf⟩ := fs
    cases cf with
    | none => simp [loadExisting] at hl
    | some cb =>
      cases kf with
      | none => simp [loadExisting] at hl
      | some kb =>
        have hm : mkdirRaisesAt o ⟨some cb, some kb⟩ = false := by
          simp [mkdirRaisesAt]
        simp [ensure_cert, hd, hm, hl]
  · intro b env o c k hd hst
    have hm : mkdirRaisesAt o ⟨some c, some k⟩ = false := by
      simp [mkdirRaisesAt]
    have hl : loadExisting b ⟨some c, some k⟩ o.statRaises = none := by
      rw [hst]
      exact hload_true b ⟨some c, some k⟩
    cases hg : generateCert b env o ⟨some c, some k⟩ with
    | ok r =>
      exact ⟨⟨some r.1, "HTTPS", r.2.1, r.2.2.2, some r.2.2.1, TLSDecision.Generated⟩,
        by simp [ensure_cert, hd, hm, hl, hg], Or.inl rfl⟩
    | error e =>
      exact ⟨⟨none, "HTTP", e.2.1, e.2.2, none, TLSDecision.FellBackToHTTP⟩,
        by simp [ensure_cert, hd, hm, hl, hg], Or.inr rfl⟩

/-- Witness for C5 at concrete states: a non-empty pair loads, a stat error
does not, a usable pair is reused over HTTPS, and a stat error ends in
regeneration. -/
theorem load_existing_semantics_witness :
    (loadExisting "base" ⟨some [1], some [2]⟩ false).isSome = true ∧
      loadExisting "base" ⟨some [1], some [2]⟩ true = none ∧
      ensure_cert "base" envOff oAllGood ⟨some [1], some [2]⟩ = Except.ok
        { ssl := some (certPath "base", keyPath "base"), protocol := "HTTPS",
          fs := ⟨some [1], some [2]⟩, warnings := 0, san := none,
          decision := TLSDecision.Reused } ∧
      (∃ out, ensure_cert "base" envOff oStatFail ⟨some [1], some [2]⟩ = Except.ok out ∧
        (out.decision = TLSDecision.Generated ∨
          out.decision = TLSDecision.FellBackToHTTP)) :=
  ⟨(load_existing_semantics.1 "base" ⟨some [1], some [2]⟩).mpr
      ⟨⟨[1], rfl, by decide⟩, ⟨[2], rfl, by decide⟩⟩,
    load_existing_semantics.2.1 "base" ⟨some [1], some [2]⟩,
    load_existing_semantics.2.2.1 "base" envOff oAllGood ⟨some [1], some [2]⟩
      (certPath "base", keyPath "base") rfl (by decide),
    load_existing_semantics.2.2.2 "base" envOff oStatFail [1] [2] rfl rfl⟩

theorem generateCert_error_of_failure (basePath : String) (env : EnvVars) (o : Oracle)
    (fs : FSState)
    (hf : o.cryptoAvailable = false ∨ o.keygenRaises = true ∨ o.writeCertRaises = true ∨
      o.writeKeyRaises = true) :
    ∃ e, generateCert basePath env o fs = Except.error e := by
  unfold generateCert
  split_ifs with h1 h2 h3 h4
  · exact ⟨_, rfl⟩
  · exact ⟨_, rfl⟩
  · exact ⟨_, rfl⟩
  · rcases hf with h | h | h | h <;> simp_all
  · exact ⟨_, rfl⟩

/-- The failures the generation try block covers do fall back: with HTTPS
enabled, the line-86 mkdir succeeding and no reusable pair, a failure of
the cryptography import, of key generation, or of persisting either file
is caught and yields the ok `({}, "HTTP")` FellBackToHTTP outcome.  The
mkdir is the one step outside this protection (see
`mkdir_failure_escapes_provisioner`). -/
theorem ensure_cert_failure_falls_back (basePath : String) (env : EnvVars) (o : Oracle)
    (fs : FSState) (hd : parse_bool env.disable_https false = false)
    (hm : mkdirRaisesAt o fs = false)
    (hl : loadExisting basePath fs o.statRaises = none)
    (hf : o.cryptoAvailable = false ∨ o.keygenRaises = true ∨ o.writeCertRaises = true ∨
      o.writeKeyRaises = true) :
    ∃ out, ensure_cert basePath env o fs = Except.ok out ∧ out.ssl = none ∧
      out.protocol = "HTTP" ∧ out.decision = TLSDecision.FellBackToHTTP := by
  obtain ⟨e, he⟩ := generateCert_error_of_failure basePath env o fs hf
  exact ⟨⟨none, "HTTP", e.2.1, e.2.2, none, TLSDecision.FellBackToHTTP⟩,
    by simp [ensure_cert, hd, hm, hl, he], rfl, rfl, rfl⟩

/-- Witness for the fallback lemma with the cryptography import unavailable
on an empty filesystem. -/
theorem ensure_cert_failure_falls_back_witness :
    ∃ out, ensure_cert "base" envOff oNoCrypto ⟨none, none⟩ = Except.ok out ∧
      out.ssl = none ∧ out.protocol = "HTTP" ∧
      out.decision = TLSDecision.FellBackToHTTP :=
  ensure_cert_failure_falls_back "base" envOff oNoCrypto ⟨none, none⟩ rfl (by decide)
    rfl (Or.inl rfl)

/-- C1 failing input, evaluated on the code: HTTPS enabled, no existing
material, the cryptography import unavailable — one of the claim's
enumerated failures — and the directory creation at launcher1.py line 86
raising (for instance, `bin/` missing under a read-only base directory).
The mkdir runs before both try blocks, so the OSError escapes
`ensure_cert` and the enumerated failure is never converted to
`({}, "HTTP")`: a failure inside provisioning crashes the bootstrap,
contrary to the claim and to the spec sentence "this fallback must never
crash the bootstrap". -/
theorem mkdir_failure_escapes_provisioner :
    ensure_cert "base" envOff oMkdirFail ⟨none, none⟩ =
      Except.error OSErr.mkdirError := rfl

/-- C7: starting from no prior material with TLS enabled, a successful
first call generates and persists the pair (protocol HTTPS), and a second
call reuses it through the Reused exit: the file contents after the second
call are byte-identical to those after the first, and both calls report
HTTPS.  The second call needs no assumption on its mkdir outcome: the
persisted pair forces `bin/` to exist. -/
theorem provisioning_idempotent (basePath : String) (env : EnvVars) (o1 o2 : Oracle)
    (hd : parse_bool env.disable_https false = false)
    (hm : o1.mkdirRaises = false)
    (hc : o1.cryptoAvailable = true) (hk : o1.keygenRaises = false)
    (hw1 : o1.writeCertRaises = false) (hw2 : o1.writeKeyRaises = false)
    (hb1 : o1.genCertBytes ≠ []) (hb2 : o1.genKeyBytes ≠ [])
    (hs2 : o2.statRaises = false) :
    ∃ out1 out2,
      ensure_cert basePath env o1 ⟨none, none⟩ = Except.ok out1 ∧
        out1.decision = TLSDecision.Generated ∧
        out1.protocol = "HTTPS" ∧
        out1.fs = ⟨some o1.genCertBytes, some o1.genKeyBytes⟩ ∧
        ensure_cert basePath env o2 out1.fs = Except.ok out2 ∧
        out2.decision = TLSDecision.Reused ∧
        out2.protocol = "HTTPS" ∧
        out2.fs = out1.fs := by
  have hm1 : mkdirRaisesAt o1 ⟨none, none⟩ = false := by
    simp [mkdirRaisesAt, hm]
  have hload1 : loadExisting basePath ⟨none, none⟩ o1.statRaises = none := by
    simp [loadExisting]
  have hgen : generateCert basePath env o1 ⟨none, none⟩ =
      Except.ok ((certPath basePath, keyPath basePath),
        ⟨some o1.genCertBytes, some o1.genKeyBytes⟩,
        (buildSanList o1 env.cert_additional_ips).1,
        (buildSanList o1 env.cert_additional_ips).2.2) := by
    simp [generateCert, hc, hk, hw1, hw2]
  have h1 : ensure_cert basePath env o1 ⟨none, none⟩ = Except.ok
      { ssl := some (certPath basePath, keyPath basePath), protocol := "HTTPS",
        fs := ⟨some o1.genCertBytes, some o1.genKeyBytes⟩,
        warnings := (buildSanList o1 env.cert_additional_ips).2.2,
        san := some (buildSanList o1 env.cert_additional_ips).1,
        decision := TLSDecision.Generated } := by
    simp [ensure_cert, hd, hm1, hload1, hgen]
  have hc1 : o1.genCertBytes.length ≠ 0 := fun h0 => hb1 (List.length_eq_zero.mp h0)
  have hk1 : o1.genKeyBytes.length ≠ 0 := fun h0 => hb2 (List.length_eq_zero.mp h0)
  have hm2 : mkdirRaisesAt o2 ⟨some o1.genCertBytes, some o1.genKeyBytes⟩ = false := by
    simp [mkdirRaisesAt]
  have hload2 : loadExisting basePath ⟨some o1.genCertBytes, some o1.genKeyBytes⟩
      o2.statRaises = some (certPath basePath, keyPath basePath) := by
    rw [hs2]
    simp [loadExisting, hc1, hk1]
  have h2 : ensure_cert basePath env o2 ⟨some o1.genCertBytes, some o1.genKeyBytes⟩ =
      Except.ok
        { ssl := some (certPath basePath, keyPath basePath), protocol := "HTTPS",
          fs := ⟨some o1.genCertBytes, some o1.genKeyBytes⟩, warnings := 0, san := none,
          decision := TLSDecision.Reused } := by
    simp [ensure_cert, hd, hm2, hload2]
  exact ⟨_, _, h1, rfl, rfl, rfl, h2, rfl, rfl, rfl⟩

/-- Witness for C7 at a concrete environment and all-success oracle. -/
theorem provisioning_idempotent_witness :
    ∃ out1 out2,
      ensure_cert "base" envOff oAllGood ⟨none, none⟩ = Except.ok out1 ∧
        out1.decision = TLSDecision.Generated ∧
        out1.protocol = "HTTPS" ∧
        out1.fs = ⟨some oAllGood.genCertBytes, some oAllGood.genKeyBytes⟩ ∧
        ensure_cert "base" envOff oAllGood out1.fs = Except.ok out2 ∧
        out2.decision = TLSDecision.Reused ∧
        out2.protocol = "HTTPS" ∧
        out2.fs = out1.fs :=
  provisioning_idempotent "base" envOff oAllGood oAllGood rfl rfl rfl rfl rfl rfl
    (by decide) (by decide) rfl

/-- C2 counterexample: with the PORT key missing entirely, validate_config
resolves the port to 8888 but the warning branch does not run — the code
parses the default string "8888" successfully, so no warning is emitted,
contrary to the claim. -/
theorem port_missing_key_no_warning :
    launcher1.validate_config_port none = (8888, false) ∧
      ¬ (launcher1.validate_config_port none).2 = true := by
  decide

/-- C2 as amended: a set value parsing (by Python int) to an integer in
1..65535 yields exactly that port with no warning; a set value that does
not parse, or parses out of range, yields 8888 with a warning; a missing
key yields 8888 silently.  The function is total, so it never raises. -/
theorem port_resolution :
    (∀ (s : String) (n : Int), pyIntOfString s = some n → 1 ≤ n → n ≤ 65535 →
        launcher1.validate_config_port (some s) = (n, false)) ∧
      (∀ s : String, pyIntOfString s = none →
        launcher1.validate_config_port (some s) = (8888, true)) ∧
      (∀ (s : String) (n : Int), pyIntOfString s = some n → (n < 1 ∨ 65535 < n) →
        launcher1.validate_config_port (some s) = (8888, true)) ∧
      launcher1.validate_config_port none = (8888, false) := by
  refine ⟨?_, ?_, ?_, by decide⟩
  · intro s n h h1 h2
    simp [launcher1.validate_config_port, h, h1, h2]
  · intro s h
    simp [launcher1.validate_config_port, h]
  · intro s n h hr
    have hnot : ¬ (1 ≤ n ∧ n ≤ 65535) := by omega
    simp [launcher1.validate_config_port, h, hnot]

/-- Witness for the amended C2 theorem: an in-range value, a non-numeric
value and an out-of-range value. -/
theorem port_resolution_witness :
    launcher1.validate_config_port (some "9999") = (9999, false) ∧
      launcher1.validate_config_port (some "abc") = (8888, true) ∧
      launcher1.validate_config_port (some "70000") = (8888, true) :=
  ⟨port_resolution.1 "9999" 9999 (by decide) (by decide) (by decide),
    port_resolution.2.1 "abc" (by decide),
    port_resolution.2.2.1 "70000" 70000 (by decide) (Or.inr (by decide))⟩

/-- C8: the boolean parser returns true exactly on values whose stripped,
lowercased form is one of 1, true, yes, on; every other value (empty or
not) yields false; an unset value yields the supplied default. -/
theorem parse_bool_spec :
    (∀ (v : String) (d : Bool),
        (pyLower (pyStrip v) = "1" ∨ pyLower (pyStrip v) = "true" ∨
          pyLower (pyStrip v) = "yes" ∨ pyLower (pyStrip v) = "on") →
        parse_bool (some v) d = true) ∧
      (∀ (v : String) (d : Bool),
        ¬ (pyLower (pyStrip v) = "1" ∨ pyLower (pyStrip v) = "true" ∨
          pyLower (pyStrip v) = "yes" ∨ pyLower (pyStrip v) = "on") →
        parse_bool (some v) d = false) ∧
      (∀ d : Bool, parse_bool none d = d) := by
  refine ⟨?_, ?_, ?_⟩
  · intro v d h
    exact decide_eq_true h
  · intro v d h
    exact decide_eq_false h
  · intro d
    rfl

/-- Witness for C8: a padded upper-case true-string, a non-member string,
and an unset value falling back to the default. -/
theorem parse_bool_spec_witness :
    parse_bool (some " TRUE ") false = true ∧ parse_bool (some "off") true = false ∧
      parse_bool none true = true :=
  ⟨parse_bool_spec.1 " TRUE " false (by decide),
    parse_bool_spec.2.1 "off" true (by decide),
    parse_bool_spec.2.2 true⟩

/-- C9: with an empty TLS configuration the launch configuration built by
`build_uvicorn_config` is identical for both values of the HTTP/2 flag, for
every host, port and debug setting — the flag is honored only when TLS
file paths are present. -/
theorem http2_flag_ignored_without_tls (port : Int) (host : String) (debug : Bool) :
    build_uvicorn_config port host none true debug =
      build_uvicorn_config port host none false debug := rfl

/-- C10: the two launcher variants agree on port resolution — for every
value of the PORT key, including unset, both validate_config models return
the same port. -/
theorem launchers_agree_on_port (v : Option String) :
    (launcher.validate_config_port v).1 = (launcher1.validate_config_port v).1 := by
  cases v with
  | none => decide
  | some s =>
    simp only [launcher.validate_config_port, launcher1.validate_config_port,
      Option.getD_some]
